import Mathlib

/-!
# OwnUrVoice — shallow embedding and verification

A shallow embedding of the OwnUrVoice web application's registration,
login, dashboard-read and exercise-completion flows: the
`SupabaseAuthService` (the current `supabaseAuthService` copy consumed
by `Login.tsx` and the dashboards — the repository also carries a stale
duplicate appended to `authService.ts`; `register` and the login
resolution/failure behaviour are identical in both, and login's success
response follows the current copy, which builds the user object from
the matched profile row), `supabaseTherapistService.ts`,
`Register.tsx`, `Login.tsx`, the patient service accompanying
`PatientDetails.tsx`, and the legacy in-memory backend
`src/backend/routes/auth.ts` — together with theorems settling the
spec's claims about those flows.

The hosted identity provider (Supabase Auth) and the hosted relational
store are external services; they are modelled explicitly: tables are
lists of rows, the provider is a list of accounts, and the PostgREST
`single()` / `maybeSingle()` result-shaping rules are modelled as
functions of the matching row multiset.  Transport/provider failures
that the code merely propagates are modelled as explicit outcome
parameters.  Row ids are modelled as plain strings, so the source's
`filter(id => id !== null)` steps are identity maps and are not
re-modelled.
-/

namespace OwnUrVoice

/-- A row of the `patient` table (columns per the `Patient` interface in
`supabaseTherapistService.ts`; columns not supplied by every insert are
`Option`). -/
structure PatientRow where
  user_id : String
  username : String
  email : String
  first_name : String
  last_name : String
  phone_number : String
  date_of_birth : String
  user_role : String
  patient_profile : Option String
  therapy_start_date : Option String
  preferred_contact_method : Option String
  created_at : Option String
deriving Repr, DecidableEq

/-- A row of the `therapist` table (columns per the `Therapist` interface). -/
structure TherapistRow where
  user_id : String
  username : String
  email : String
  first_name : String
  last_name : String
  phone_number : String
  date_of_birth : String
  user_role : String
  qualification : Option String
  years_of_experience : Option Int
  clinic_name : Option String
  created_at : Option String
deriving Repr, DecidableEq

/-- A row of the `parent_carer` table (columns per the insert in
`SupabaseAuthService.register`). -/
structure ParentCarerRow where
  user_id : String
  username : String
  email : String
  first_name : String
  last_name : String
  phone_number : String
  date_of_birth : String
  user_role : String
  relationship_to_patient : Option String
deriving Repr, DecidableEq

/-- A row of the `session` table (columns per the `Session` interface). -/
structure SessionRow where
  session_id : String
  patient_id : String
  therapist_id : String
  session_date : String
  session_time : String
  session_type : String
  status : String
  location : String
deriving Repr, DecidableEq

/-- A row of the `goal` table (columns per the `Goal` interface). -/
structure GoalRow where
  goal_id : String
  session_id : String
  goal_description : String
  start_date : String
  target_date : String
  status : String
  priority : String
deriving Repr, DecidableEq

/-- A row of the `session_exercise` join table (columns per the
`SessionExercise` interface, plus the `completion_date` column written by
`markExerciseComplete`). -/
structure SessionExerciseRow where
  session_id : String
  exercise_id : String
  completed : Bool
  completion_date : Option String
  notes : String
deriving Repr, DecidableEq

/-- A row of the `goal_exercise_set` join table (columns per the
`GoalExercise` interface). -/
structure GoalExerciseRow where
  goal_id : String
  exercise_id : String
deriving Repr, DecidableEq

/-- The hosted relational store: one list of rows per table the claims
touch. -/
structure DB where
  therapist : List TherapistRow
  patient : List PatientRow
  parent_carer : List ParentCarerRow
  session : List SessionRow
  goal : List GoalRow
  session_exercise : List SessionExerciseRow
  goal_exercise_set : List GoalExerciseRow
deriving Repr, DecidableEq

/-- The empty store. -/
def DB.empty : DB := ⟨[], [], [], [], [], [], []⟩

/-- Modelled from the spec: an identity-provider account record
(spec §3 "Account: external identity-provider record; attributes: id,
email, credential").  The provider is external (out of scope); this is
the account object its sign-up/sign-in calls return.  It carries no
application role: the application's role lives only in the profile
tables. -/
structure Account where
  id : String
  email : String
  credential : String
deriving Repr, DecidableEq

/-- Modelled from the spec: the identity provider's state — the accounts
it holds, plus the (opaque, provider-chosen) message it returns on a
credential mismatch, modelled as a parameter because the application
surfaces it verbatim (Supabase's actual message is
"Invalid login credentials"). -/
structure Identity where
  accounts : List Account
  badCredMsg : String
deriving Repr, DecidableEq

/-- Modelled from the spec: `supabase.auth.signUp { email, password }`.
Fails on a duplicate email, or when the provider rejects the call for
its own reasons (`reject`); otherwise mints an account with a fresh
opaque id `newId` taken as a parameter. -/
def signUp (ident : Identity) (email pwd : String) (newId : String)
    (reject : Option String) : Except String (Account × Identity) :=
  match reject with
  | some m => .error m
  | none =>
      if ident.accounts.any (fun a => a.email == email) then
        .error "User already registered"
      else
        let a : Account := ⟨newId, email, pwd⟩
        .ok (a, ⟨ident.accounts ++ [a], ident.badCredMsg⟩)

/-- Modelled from the spec: `supabase.auth.signInWithPassword`.
Succeeds only when an account with that email exists and the credential
matches; otherwise fails with the provider's own mismatch message. -/
def signInWithPassword (ident : Identity) (email pwd : String) :
    Except String Account :=
  match ident.accounts.find? (fun a => a.email == email) with
  | some a => if a.credential == pwd then .ok a else .error ident.badCredMsg
  | none => .error ident.badCredMsg

/-- The `RegisterData` payload as sent to `SupabaseAuthService.register`
(`supabaseAuthService.ts`): common fields plus optional role-specific
fields; `role` is one of `"therapist" | "patient" | "parent_carer"`. -/
structure RegisterData where
  username : String
  email : String
  password : String
  firstName : String
  lastName : String
  phoneNumber : String
  dateOfBirth : String
  role : String
  clinicName : Option String
  yearsOfExperience : Option Int
  qualification : Option String
  therapyStartDate : Option String
  preferredContactMethod : Option String
  relationshipToPatient : Option String
deriving Repr, DecidableEq

/-- The `AuthResponse` shape returned by the Supabase auth service. -/
structure AuthResponse where
  success : Bool
  message : String
  user : Option Account
deriving Repr, DecidableEq

/-- The `therapist` row built by `register`'s therapist-branch insert. -/
def mkTherapistRow (uid : String) (d : RegisterData) : TherapistRow :=
  { user_id := uid, username := d.username, email := d.email,
    first_name := d.firstName, last_name := d.lastName,
    phone_number := d.phoneNumber, date_of_birth := d.dateOfBirth,
    user_role := "therapist", qualification := d.qualification,
    years_of_experience := d.yearsOfExperience,
    clinic_name := d.clinicName, created_at := none }

/-- The `patient` row built by `register`'s patient-branch insert. -/
def mkPatientRow (uid : String) (d : RegisterData) : PatientRow :=
  { user_id := uid, username := d.username, email := d.email,
    first_name := d.firstName, last_name := d.lastName,
    phone_number := d.phoneNumber, date_of_birth := d.dateOfBirth,
    user_role := "patient", patient_profile := none,
    therapy_start_date := d.therapyStartDate,
    preferred_contact_method := d.preferredContactMethod,
    created_at := none }

/-- The `parent_carer` row built by `register`'s parent/carer-branch insert. -/
def mkParentCarerRow (uid : String) (d : RegisterData) : ParentCarerRow :=
  { user_id := uid, username := d.username, email := d.email,
    first_name := d.firstName, last_name := d.lastName,
    phone_number := d.phoneNumber, date_of_birth := d.dateOfBirth,
    user_role := "parent_carer",
    relationship_to_patient := d.relationshipToPatient }

/-- The function `SupabaseAuthService.register`: sign up with the identity provider
first (any error is thrown and caught, yielding a failure response with
the provider's message); then insert one profile row into the table
matching `data.role`; an insert error (`insertFail`, the store's
outcome for the insert) is thrown and caught, yielding a failure
response — with no compensating deletion of the just-created account.
Returns the response together with the resulting provider and store
states. -/
def register (d : RegisterData) (ident : Identity) (db : DB)
    (newId : String) (reject : Option String) (insertFail : Option String) :
    AuthResponse × Identity × DB :=
  match signUp ident d.email d.password newId reject with
  | .error m => (⟨false, m, none⟩, ident, db)
  | .ok (a, ident') =>
      let step : Option String × DB :=
        if d.role == "therapist" then
          match insertFail with
          | some m => (some m, db)
          | none => (none, { db with therapist := db.therapist ++ [mkTherapistRow a.id d] })
        else if d.role == "patient" then
          match insertFail with
          | some m => (some m, db)
          | none => (none, { db with patient := db.patient ++ [mkPatientRow a.id d] })
        else if d.role == "parent_carer" then
          match insertFail with
          | some m => (some m, db)
          | none => (none, { db with parent_carer := db.parent_carer ++ [mkParentCarerRow a.id d] })
        else (none, db)
      match step.1 with
      | some m => (⟨false, m, none⟩, ident', step.2)
      | none => (⟨true, "Registration Successful!", some a⟩, ident', step.2)

/-- PostgREST `maybeSingle()` on a list of matching values: one match
yields it; zero matches yield null; several matches yield an error whose
`data` is null — and `login` reads only `data`, so both degenerate cases
surface as `none`. -/
def maybeSingle {α : Type} (ms : List α) : Option α :=
  match ms with
  | [x] => some x
  | _ => none

/-- The effects `login` performs, in order, for observing which tables
are consulted and whether the identity provider is contacted. -/
inductive LoginEvent where
  | queryTherapist
  | queryPatient
  | queryParent
  | providerSignIn
deriving Repr, DecidableEq

/-- Emails of `therapist` rows with the given username: the email
column of the rows returned by `select('*').eq('username', u)` (used to
state the resolution outcome; `maybeSingle` commutes with the
projection). -/
def therapistEmails (db : DB) (u : String) : List String :=
  (db.therapist.filter (fun t => t.username == u)).map (·.email)

/-- Emails of `patient` rows with the given username. -/
def patientEmails (db : DB) (u : String) : List String :=
  (db.patient.filter (fun p => p.username == u)).map (·.email)

/-- Emails of `parent_carer` rows with the given username. -/
def parentEmails (db : DB) (u : String) : List String :=
  (db.parent_carer.filter (fun p => p.username == u)).map (·.email)

/-- The `email` / `userRole` / `fullUserData` variables as assigned in
the branch of `SupabaseAuthService.login` whose table matched: the
fields of the matched profile row that the flow goes on to read. -/
structure ProfileHit where
  user_id : String
  username : String
  first_name : String
  last_name : String
  email : String
  role : String
deriving Repr, DecidableEq

/-- The assignment made in the therapist branch (`userRole = 'therapist'`,
`fullUserData = therapistData`). -/
def TherapistRow.hit (t : TherapistRow) : ProfileHit :=
  ⟨t.user_id, t.username, t.first_name, t.last_name, t.email, "therapist"⟩

/-- The assignment made in the patient branch. -/
def PatientRow.hit (r : PatientRow) : ProfileHit :=
  ⟨r.user_id, r.username, r.first_name, r.last_name, r.email, "patient"⟩

/-- The assignment made in the parent/carer branch. -/
def ParentCarerRow.hit (c : ParentCarerRow) : ProfileHit :=
  ⟨c.user_id, c.username, c.first_name, c.last_name, c.email, "parent_carer"⟩

/-- The user object constructed by `SupabaseAuthService.login` on
success (the current service copy): the matched profile row's fields,
with `id` duplicating `user_id`, `email` taken from the provider's
account object (`data.user.email`), and `role` / `user_role` both set
to the role of the table that matched. -/
structure LoginUser where
  user_id : String
  id : String
  email : String
  username : String
  firstName : String
  lastName : String
  role : String
  user_role : String
deriving Repr, DecidableEq

/-- The `AuthResponse` shape of a login call: `user` holds the
constructed login user object. -/
structure LoginResponse where
  success : Bool
  message : String
  user : Option LoginUser
deriving Repr, DecidableEq

/-- The tail of `SupabaseAuthService.login` once the `email`, `userRole`
and `fullUserData` variables are settled: an empty email means no
profile matched, so the flow throws "Invalid username or password"
(caught into a failure response) without contacting the provider;
otherwise it signs in with the provider, surfacing the provider's error
message verbatim on rejection and constructing the user object from the
matched row on success. -/
def loginWithEmail (ident : Identity) (hit : ProfileHit) (password : String)
    (tr : List LoginEvent) : LoginResponse × List LoginEvent :=
  if hit.email == "" then
    (⟨false, "Invalid username or password", none⟩, tr)
  else
    match signInWithPassword ident hit.email password with
    | .error m => (⟨false, m, none⟩, tr ++ [.providerSignIn])
    | .ok a =>
        (⟨true, "Login successful",
          some ⟨hit.user_id, hit.user_id, a.email, hit.username,
            hit.first_name, hit.last_name, hit.role, hit.role⟩⟩,
          tr ++ [.providerSignIn])

/-- The function `SupabaseAuthService.login` (current copy in the
services directory): resolve the username by querying the `therapist`,
then `patient`, then `parent_carer` tables with
`select('*').maybeSingle()`, stopping at the first table that returns a
row and recording its email, role and row data; then authenticate the
resolved email against the identity provider and, on success, return
the user object constructed from the matched row.  Also returns the
trace of queries/provider calls performed. -/
def login (db : DB) (ident : Identity) (username password : String) :
    LoginResponse × List LoginEvent :=
  match maybeSingle (db.therapist.filter (fun t => t.username == username)) with
  | some t => loginWithEmail ident t.hit password [.queryTherapist]
  | none =>
      match maybeSingle (db.patient.filter (fun r => r.username == username)) with
      | some r => loginWithEmail ident r.hit password [.queryTherapist, .queryPatient]
      | none =>
          match maybeSingle (db.parent_carer.filter
              (fun c => c.username == username)) with
          | some c =>
              loginWithEmail ident c.hit password
                [.queryTherapist, .queryPatient, .queryParent]
          | none =>
              (⟨false, "Invalid username or password", none⟩,
                [.queryTherapist, .queryPatient, .queryParent])

/-- The registration form state of `Register.tsx` — every field is a
string; an empty string is the falsy "missing" value. -/
structure RegisterForm where
  username : String
  email : String
  password : String
  confirmPassword : String
  firstName : String
  lastName : String
  phoneNumber : String
  dateOfBirth : String
  role : String
  clinicName : String
  yearsOfExperience : String
  qualification : String
  therapyStartDate : String
  preferredContactMethod : String
  relationshipToPatient : String
deriving Repr, DecidableEq

/-- The `validateForm` function of `Register.tsx`: basic required fields, password
length ≥ 6, password/confirmation match, then therapist- and
patient-specific required fields.  (The parent/carer-specific field is
not checked here.) -/
def validateForm (f : RegisterForm) : Bool :=
  if f.username.isEmpty || f.email.isEmpty || f.password.isEmpty ||
      f.confirmPassword.isEmpty || f.firstName.isEmpty || f.lastName.isEmpty ||
      f.phoneNumber.isEmpty || f.dateOfBirth.isEmpty || f.role.isEmpty then
    false
  else if f.password.length < 6 then
    false
  else if f.password != f.confirmPassword then
    false
  else if f.role == "therapist" &&
      (f.clinicName.isEmpty || f.yearsOfExperience.isEmpty ||
        f.qualification.isEmpty) then
    false
  else if f.role == "patient" &&
      (f.therapyStartDate.isEmpty || f.preferredContactMethod.isEmpty) then
    false
  else
    true

/-- The `dataToSend` object built by `Register.tsx`'s `handleSubmit`:
common fields always, role-specific fields only under the matching role
(the conditional spreads); `yearsOfExperience` goes through `parseInt`. -/
def buildRegisterData (f : RegisterForm) : RegisterData :=
  { username := f.username, email := f.email, password := f.password,
    firstName := f.firstName, lastName := f.lastName,
    phoneNumber := f.phoneNumber, dateOfBirth := f.dateOfBirth,
    role := f.role,
    clinicName := if f.role == "therapist" then some f.clinicName else none,
    yearsOfExperience :=
      if f.role == "therapist" then f.yearsOfExperience.toInt? else none,
    qualification := if f.role == "therapist" then some f.qualification else none,
    therapyStartDate := if f.role == "patient" then some f.therapyStartDate else none,
    preferredContactMethod :=
      if f.role == "patient" then some f.preferredContactMethod else none,
    relationshipToPatient :=
      if f.role == "parent_carer" then some f.relationshipToPatient else none }

/-- Modelled from the spec: the JavaScript access `response.user?.user_id`
in `Register.tsx`'s auto-link guard.  The identity-provider account
(spec §3) carries the attributes id, email and credential — it has no
`user_id` attribute (its identifier attribute is `id`), so the access
yields no value (`undefined`). -/
def Account.user_id_field (_ : Account) : Option String := none

/-- The AUTO-LINK block of `Register.tsx`'s `handleSubmit`, run after a
successful registration: when the role is patient and
`response.user?.user_id` is truthy, look up the patient row with this
email via `single()` (exactly one matching row and no error required),
and if found update `user_id` on every patient row with that email; all
failures of this block are swallowed. -/
def autoLinkPatient (role : String) (user : Option Account) (email : String)
    (db : DB) : DB :=
  if role == "patient" then
    match user.bind Account.user_id_field with
    | some uid =>
        match db.patient.filter (fun p => p.email == email) with
        | [_] =>
            { db with patient := db.patient.map (fun p =>
                if p.email == email then { p with user_id := uid } else p) }
        | _ => db
    | none => db
  else db

/-- The `handleSubmit` function of `Register.tsx`: validate; on validation failure stop
(no account creation, `none`); otherwise build `dataToSend`, call the
auth service's `register`, and on success run the auto-link block. -/
def handleSubmitRegister (f : RegisterForm) (ident : Identity) (db : DB)
    (newId : String) (reject : Option String) (insertFail : Option String) :
    Option (AuthResponse × Identity × DB) :=
  if validateForm f then
    let d := buildRegisterData f
    let (res, ident', db') := register d ident db newId reject insertFail
    if res.success then
      some (res, ident', autoLinkPatient d.role res.user d.email db')
    else
      some (res, ident', db')
  else
    none

/-- The `roleToPath` map of `Login.tsx`'s `handleSubmit`. -/
def roleToPath (r : String) : Option String :=
  if r == "therapist" then some "/therapist-dashboard"
  else if r == "patient" then some "/patient-dashboard"
  else if r == "parent_carer" then some "/parent-dashboard"
  else none

/-- JavaScript whitespace as stripped by `String.prototype.trim` (the
characters occurring in this code base's data). -/
def isJsSpace (c : Char) : Bool := c == ' ' || c == '\t' || c == '\n' || c == '\r'

/-- Shallow embedding of JavaScript `.trim()`: strip leading and
trailing whitespace. -/
def jsTrim (s : String) : String :=
  ⟨((s.data.dropWhile isJsSpace).reverse.dropWhile isJsSpace).reverse⟩

/-- ASCII lower-casing of one character (the role strings are ASCII). -/
def asciiLower (c : Char) : Char :=
  if 65 ≤ c.toNat ∧ c.toNat ≤ 90 then Char.ofNat (c.toNat + 32) else c

/-- Shallow embedding of JavaScript `.toLowerCase()` on the ASCII role
strings. -/
def jsToLower (s : String) : String := ⟨s.data.map asciiLower⟩

/-- The redirect selection of `Login.tsx`'s `handleSubmit`: on a
successful login, normalise `response.user?.role` — the `role` field of
the user object the login service constructed from the matched profile
row — with trim and lower-case, look it up in `roleToPath`, and fall
back to `/`; on failure no navigation happens (`none`). -/
def loginRedirect (res : LoginResponse) : Option String :=
  if res.success then
    let userRole :=
      jsToLower (jsTrim (match res.user with
        | some u => u.role
        | none => ""))
    some ((roleToPath userRole).getD "/")
  else
    none

/-- A user record of the legacy in-memory backend
(`src/backend/routes/auth.ts`); `password` holds the bcrypt hash. -/
structure BackendUser where
  id : String
  username : String
  email : String
  password : String
  role : String
deriving Repr, DecidableEq

/-- Modelled from the spec: `bcrypt.compare` — an external library call;
modelled as an opaque check parameterised by the verifier relation. -/
def bcryptCompare (check : String → String → Bool) (plain hash : String) :
    Bool := check plain hash

/-- The legacy backend `POST /api/auth/login` handler
(`src/backend/routes/auth.ts`): require both fields; find a user by
username or email; reject an unknown user and a failed password check
with the same generic message. Returns (success, message). -/
def backendLogin (users : List BackendUser) (check : String → String → Bool)
    (username password : String) : Bool × String :=
  if username.isEmpty || password.isEmpty then
    (false, "Username and password are required")
  else
    match users.find? (fun u => u.username == username || u.email == username) with
    | none => (false, "Invalid username or password")
    | some u =>
        if bcryptCompare check password u.password then
          (true, "Login successful")
        else
          (false, "Invalid username or password")

/-- PostgREST `single()` on the list of rows a query returned: exactly
one row is returned as data, otherwise the call yields an error. -/
def single {α : Type} (ms : List α) : Except String α :=
  match ms with
  | [x] => .ok x
  | _ => .error "JSON object requested, multiple (or no) rows returned"

/-- The function `getPatientProfile` (patient service in `PatientDetails.tsx`):
select the `patient` row with the given `user_id` via `single()`; any
error — transport failure (`transportFail`) or a zero/multi-row
`single()` result — is caught and converted to `null`. -/
def getPatientProfile (db : DB) (userId : String)
    (transportFail : Option String) : Option PatientRow :=
  match transportFail with
  | some _ => none
  | none =>
      match single (db.patient.filter (fun p => p.user_id == userId)) with
      | .ok p => some p
      | .error _ => none

/-- The profile step of `PatientDashboard.loadDashboardData`: a `null`
profile aborts the whole read with the user-visible error
"Patient profile not found"; otherwise the load proceeds. -/
def loadDashboardProfileError (profile : Option PatientRow) : Option String :=
  match profile with
  | none => some "Patient profile not found"
  | some _ => none

/-- The function `getTherapistPatients` (`supabaseTherapistService.ts`): select the
`patient_id` of every session with this therapist; return `[]` when
there are none; de-duplicate the ids (`Array.from(new Set(...))`; ids
are non-null strings, so the null filter keeps all); return `[]` when
none remain; bulk-fetch the patient rows whose `user_id` is among them,
ordered by `created_at` descending. -/
def getTherapistPatients (db : DB) (therapistId : String) : List PatientRow :=
  let sessions := db.session.filter (fun s => s.therapist_id == therapistId)
  if sessions.isEmpty then []
  else
    let patientIds := (sessions.map (·.patient_id)).eraseDups
    if patientIds.isEmpty then []
    else
      (db.patient.filter (fun p => patientIds.contains p.user_id)).insertionSort
        (fun a b => (b.created_at.getD "") ≤ (a.created_at.getD ""))

/-- The function `getTherapistSessions` (`supabaseTherapistService.ts`): the sessions
with this therapist, ordered by `session_date` descending, limited to
`limit` (default 10) rows. -/
def getTherapistSessions (db : DB) (therapistId : String)
    (limit : Nat) : List SessionRow :=
  ((db.session.filter (fun s => s.therapist_id == therapistId)).insertionSort
      (fun a b => b.session_date ≤ a.session_date)).take limit

/-- The function `getPatientActiveGoals` (patient service in `PatientDetails.tsx`):
session ids of the patient's sessions (empty ⇒ `[]`), then the goals of
those sessions whose status is `active` or `in progress`, ordered by
`target_date` ascending. -/
def getPatientActiveGoals (db : DB) (patientId : String) : List GoalRow :=
  let sessions := db.session.filter (fun s => s.patient_id == patientId)
  if sessions.isEmpty then []
  else
    let sessionIds := sessions.map (·.session_id)
    if sessionIds.isEmpty then []
    else
      ((db.goal.filter (fun g =>
          sessionIds.contains g.session_id &&
            ["active", "in progress"].contains g.status)).insertionSort
        (fun a b => a.target_date ≤ b.target_date))

/-- The function `getPatientAssignedExercises` (patient service in
`PatientDetails.tsx`): three-step fan-out — the patient's session ids,
then the goal ids of goals in those sessions, then the
`goal_exercise_set` rows of those goals; each empty intermediate step
returns `[]` at once. -/
def getPatientAssignedExercises (db : DB) (patientId : String) :
    List GoalExerciseRow :=
  let sessions := db.session.filter (fun s => s.patient_id == patientId)
  if sessions.isEmpty then []
  else
    let sessionIds := sessions.map (·.session_id)
    if sessionIds.isEmpty then []
    else
      let goals := db.goal.filter (fun g => sessionIds.contains g.session_id)
      if goals.isEmpty then []
      else
        let goalIds := goals.map (·.goal_id)
        if goalIds.isEmpty then []
        else
          db.goal_exercise_set.filter (fun ge => goalIds.contains ge.goal_id)

/-- The spec's description of the assigned-exercises read, stated
directly: exactly the `goal_exercise_set` rows reachable through the
chain patient → session → goal → join row. -/
def reachableGoalExercises (db : DB) (patientId : String) :
    List GoalExerciseRow :=
  db.goal_exercise_set.filter (fun ge =>
    db.goal.any (fun g =>
      g.goal_id == ge.goal_id &&
        db.session.any (fun s =>
          s.session_id == g.session_id && s.patient_id == patientId)))

/-- Whether a `session_exercise` row matches the (session, exercise) pair. -/
def matchesSE (sid eid : String) (r : SessionExerciseRow) : Bool :=
  r.session_id == sid && r.exercise_id == eid

/-- The per-row effect of the `update({ completed: true, completion_date:
new Date().toISOString() })` call filtered by the pair: rows matching
the pair are updated, others are untouched. -/
def completeUpd (sid eid now : String) (r : SessionExerciseRow) :
    SessionExerciseRow :=
  if matchesSE sid eid r then
    { r with completed := true, completion_date := some now }
  else r

/-- The function `markExerciseComplete` (patient service in `PatientDetails.tsx`):
update every `session_exercise` row matching the pair to
`completed = true` with `completion_date = now`; the chained
`.select().single()` then yields the updated row when exactly one row
matched and an error otherwise (which the function throws).  Returns the
call's outcome together with the resulting store. -/
def markExerciseComplete (db : DB) (sessionId exerciseId : String)
    (now : String) : Except String SessionExerciseRow × DB :=
  let updated := db.session_exercise.map (completeUpd sessionId exerciseId now)
  let db' := { db with session_exercise := updated }
  (single (updated.filter (matchesSE sessionId exerciseId)), db')

/-! ## Helpers used only to state and prove the claims -/

/-- The resolution step of `login` on its own: the first of the three
profile tables whose `maybeSingle()` lookup returns a row. -/
def resolveEmail (db : DB) (u : String) : Option String :=
  match maybeSingle (therapistEmails db u) with
  | some e => some e
  | none =>
      match maybeSingle (patientEmails db u) with
      | some e => some e
      | none => maybeSingle (parentEmails db u)

/-- Row count of the profile table matching a role string. -/
def profileRows (db : DB) (role : String) : Nat :=
  if role == "therapist" then db.therapist.length
  else if role == "patient" then db.patient.length
  else if role == "parent_carer" then db.parent_carer.length
  else 0

/-- Total row count over the three profile tables. -/
def totalProfileRows (db : DB) : Nat :=
  db.therapist.length + db.patient.length + db.parent_carer.length

/-- Session ids of the patient's sessions (step 1 of the fan-out). -/
def sessionIdsOf (db : DB) (pid : String) : List String :=
  (db.session.filter (fun s => s.patient_id == pid)).map (·.session_id)

/-- Goal ids of the goals attached to those sessions (step 2). -/
def goalIdsOf (db : DB) (pid : String) : List String :=
  (db.goal.filter (fun g => (sessionIdsOf db pid).contains g.session_id)).map
    (·.goal_id)

/-- The expected behaviour of `register` around the identity provider
(claim C2): the provider is consulted first — a rejection or duplicate
email leaves both provider and store untouched; a successful sign-up
followed by a successful insert adds exactly one profile row, in the
table matching the role; a failed insert fails the registration but the
freshly created identity-provider account remains (no rollback). -/
def registerSequencingSpec (d : RegisterData) (ident : Identity) (db : DB)
    (newId rejectMsg insertMsg : String) : Prop :=
  (∀ ifl : Option String,
      register d ident db newId (some rejectMsg) ifl =
        (⟨false, rejectMsg, none⟩, ident, db)) ∧
  (ident.accounts.any (fun a => a.email == d.email) = true →
      ∀ ifl : Option String,
        register d ident db newId none ifl =
          (⟨false, "User already registered", none⟩, ident, db)) ∧
  (ident.accounts.any (fun a => a.email == d.email) = false →
      (register d ident db newId none none).1.success = true ∧
      (register d ident db newId none none).2.1.accounts =
        ident.accounts ++ [⟨newId, d.email, d.password⟩] ∧
      profileRows (register d ident db newId none none).2.2 d.role =
        profileRows db d.role + 1 ∧
      totalProfileRows (register d ident db newId none none).2.2 =
        totalProfileRows db + 1) ∧
  (ident.accounts.any (fun a => a.email == d.email) = false →
      register d ident db newId none (some insertMsg) =
        (⟨false, insertMsg, none⟩,
          ⟨ident.accounts ++ [⟨newId, d.email, d.password⟩], ident.badCredMsg⟩,
          db))

/-! ## Concrete fixtures for witnesses and counterexamples -/

/-- The spec §8 example's registration form: patient "Will",
email `will@example.com`, password `WD1234`. -/
def willForm : RegisterForm :=
  { username := "Will", email := "will@example.com", password := "WD1234",
    confirmPassword := "WD1234", firstName := "Will", lastName := "Doe",
    phoneNumber := "+44 1234 567890", dateOfBirth := "2000-01-01",
    role := "patient", clinicName := "", yearsOfExperience := "",
    qualification := "", therapyStartDate := "2024-01-01",
    preferredContactMethod := "email", relationshipToPatient := "" }

/-- A fresh identity provider (no accounts); its credential-mismatch
message is Supabase's actual one. -/
def ident0 : Identity := ⟨[], "Invalid login credentials"⟩

/-- Outcome of submitting the example registration against an empty
store (the fallback component is never used: the submission succeeds). -/
def willOut : AuthResponse × Identity × DB :=
  (handleSubmitRegister willForm ident0 DB.empty "uid-1" none none).getD
    (⟨false, "", none⟩, ident0, DB.empty)

/-- A pre-existing, unlinked patient row with Will's email (its
`user_id` is a placeholder UUID, as written by
`createPatientWithSession`). -/
def preRow : PatientRow :=
  { user_id := "temp-uuid", username := "will-old", email := "will@example.com",
    first_name := "Will", last_name := "Doe", phone_number := "",
    date_of_birth := "", user_role := "patient", patient_profile := none,
    therapy_start_date := none, preferred_contact_method := none,
    created_at := none }

/-- Store holding only the pre-existing unlinked patient row. -/
def dbPre : DB := { DB.empty with patient := [preRow] }

/-- A parent/carer registration form with every `validateForm`-checked
field filled but the required parent/carer field
(`relationshipToPatient`) empty. -/
def pcForm : RegisterForm :=
  { username := "Mona", email := "mona@example.com", password := "abcdef",
    confirmPassword := "abcdef", firstName := "Mona", lastName := "Lee",
    phoneNumber := "+44 5555", dateOfBirth := "1980-01-01",
    role := "parent_carer", clinicName := "", yearsOfExperience := "",
    qualification := "", therapyStartDate := "", preferredContactMethod := "",
    relationshipToPatient := "" }

/-- A single incomplete session-exercise join row. -/
def seRow : SessionExerciseRow := ⟨"s1", "e1", false, none, ""⟩

/-- Store holding only that join row. -/
def dbSE : DB := { DB.empty with session_exercise := [seRow] }

/-- A therapist row for the login-resolution witness. -/
def tinaRow : TherapistRow :=
  { user_id := "tid-1", username := "tina", email := "tina@example.com",
    first_name := "Tina", last_name := "Ng", phone_number := "",
    date_of_birth := "", user_role := "therapist", qualification := none,
    years_of_experience := none, clinic_name := none, created_at := none }

/-- Store holding only that therapist row. -/
def dbTina : DB := { DB.empty with therapist := [tinaRow] }

/-- A parent/carer row used to instantiate the login-resolution theorem. -/
def carerRow : ParentCarerRow :=
  { user_id := "cid-1", username := "cara", email := "cara@example.com",
    first_name := "Cara", last_name := "Lee", phone_number := "",
    date_of_birth := "", user_role := "parent_carer",
    relationship_to_patient := some "Mother" }

/-- A store exercising the three-step fan-out: patient `p1` owns session
`s1` with goal `g1`; a second patient's session/goal and a dangling join
row must not be reached. -/
def dbNine : DB :=
  { DB.empty with
    session :=
      [⟨"s1", "p1", "t1", "2025-01-01", "09:00", "therapy", "scheduled", "loc"⟩,
       ⟨"s2", "p2", "t1", "2025-01-02", "09:00", "therapy", "scheduled", "loc"⟩],
    goal :=
      [⟨"g1", "s1", "desc", "2025-01-01", "2025-02-01", "active", "high"⟩,
       ⟨"g2", "s2", "desc", "2025-01-01", "2025-02-01", "active", "high"⟩],
    goal_exercise_set := [⟨"g1", "e1"⟩, ⟨"g2", "e2"⟩, ⟨"gX", "e3"⟩] }

/-! ## Claim theorems -/

/-- C1: running the spec's example against the code — registering the
patient (email `will@example.com`, password `WD1234`) succeeds and
inserts a patient profile row with `user_role = "patient"`; the
subsequent login with username `Will` / password `WD1234` succeeds,
returning the user object the service builds from the matched patient
row with `role = "patient"`, so `Login.tsx` selects the redirect target
`/patient-dashboard`. -/
theorem c1_example_register_login_run :
    willOut.1.success = true ∧
    willOut.2.2.patient.map (fun p => (p.email, p.user_role)) =
      [("will@example.com", "patient")] ∧
    (login willOut.2.2 willOut.2.1 "Will" "WD1234").1.success = true ∧
    loginRedirect (login willOut.2.2 willOut.2.1 "Will" "WD1234").1 =
      some "/patient-dashboard" := by decide

/-- C4: with a pre-existing unlinked patient row (placeholder user_id
`temp-uuid`) carrying the registrant's email, a fresh patient
registration reports success — yet the pre-existing row's `user_id` is
left untouched: the auto-link block's guard reads
`response.user?.user_id`, but the identity-provider account exposes
`id`, not `user_id`, so the guard is never satisfied and the auto-link
update never runs. -/
theorem c4_autolink_never_runs :
    (handleSubmitRegister willForm ident0 dbPre "uid-1" none none).map
        (fun o => (o.1.success, o.2.2.patient.map (fun p => p.user_id))) =
      some (true, ["temp-uuid", "uid-1"]) := by decide

/-- C3 counterexample: in the Supabase login flow, a known username with
a wrong password surfaces the identity provider's own message ("Invalid
login credentials"), while an unknown username yields "Invalid username
or password" — the two failure messages differ, so the claim that they
are identical is false at this concrete input. -/
theorem c3_counterexample_messages_differ :
    (login willOut.2.2 willOut.2.1 "Will" "wrong").1.success = false ∧
    (login willOut.2.2 willOut.2.1 "Ghost" "wrong").1.success = false ∧
    (login willOut.2.2 willOut.2.1 "Will" "wrong").1.message ≠
      (login willOut.2.2 willOut.2.1 "Ghost" "wrong").1.message := by decide

/-- C2: for every registration input carrying one of the three form
roles, the flow consults the identity provider first — a provider
rejection or a duplicate email fails the registration with the
provider's message and leaves provider and store untouched; after a
successful sign-up, a successful insert adds exactly one profile row,
in the table matching the chosen role; a failed insert fails the
registration while the freshly created identity-provider account stays
in place (no compensating rollback deletes it). -/
theorem c2_register_provider_first_no_rollback
    (d : RegisterData) (ident : Identity) (db : DB)
    (newId rejectMsg insertMsg : String)
    (hrole : d.role = "therapist" ∨ d.role = "patient" ∨
      d.role = "parent_carer") :
    registerSequencingSpec d ident db newId rejectMsg insertMsg := by
  obtain hr | hr | hr := hrole <;>
    refine ⟨fun ifl => rfl, fun hdup ifl => ?_, fun hdup => ?_, fun hdup => ?_⟩ <;>
      simp [register, signUp, hdup, hr, profileRows, totalProfileRows] <;>
        omega

/-- Witness for C2 at the spec example's registration input. -/
theorem c2_witness :
    ((buildRegisterData willForm).role = "therapist" ∨
      (buildRegisterData willForm).role = "patient" ∨
      (buildRegisterData willForm).role = "parent_carer") ∧
    registerSequencingSpec (buildRegisterData willForm) ident0 DB.empty
      "uid-1" "provider down" "insert failed" :=
  ⟨by decide,
    c2_register_provider_first_no_rollback (buildRegisterData willForm)
      ident0 DB.empty "uid-1" "provider down" "insert failed" (by decide)⟩

/-- Every event in the outcome trace of `loginWithEmail` is either one
of the events already recorded or the provider sign-in. -/
theorem loginWithEmail_trace_mem (ident : Identity) (hit : ProfileHit)
    (p : String) (tr : List LoginEvent) :
    ∀ x ∈ (loginWithEmail ident hit p tr).2,
      x ∈ tr ∨ x = LoginEvent.providerSignIn := by
  unfold loginWithEmail
  split
  · exact fun x hx => Or.inl hx
  · cases h : signInWithPassword ident hit.email p <;>
      · intro x hx
        simp only [h, List.mem_append, List.mem_singleton] at hx
        exact hx

/-- C5: username resolution queries the therapist, then the patient,
then the parent/carer table, stopping at the first table whose lookup
returns a row (later tables are never consulted); when no table
matches, login fails with "Invalid username or password" and the
identity provider is never contacted. -/
theorem c5_username_resolution_order (db : DB) (ident : Identity)
    (u p : String) (trow : TherapistRow) (prow : PatientRow)
    (crow : ParentCarerRow) :
    (maybeSingle (db.therapist.filter (fun t => t.username == u)) = some trow →
      login db ident u p = loginWithEmail ident trow.hit p [.queryTherapist] ∧
      LoginEvent.queryPatient ∉ (login db ident u p).2 ∧
      LoginEvent.queryParent ∉ (login db ident u p).2) ∧
    (maybeSingle (db.therapist.filter (fun t => t.username == u)) = none →
      maybeSingle (db.patient.filter (fun r => r.username == u)) = some prow →
      login db ident u p =
        loginWithEmail ident prow.hit p [.queryTherapist, .queryPatient] ∧
      LoginEvent.queryParent ∉ (login db ident u p).2) ∧
    (maybeSingle (db.therapist.filter (fun t => t.username == u)) = none →
      maybeSingle (db.patient.filter (fun r => r.username == u)) = none →
      maybeSingle (db.parent_carer.filter (fun c => c.username == u)) =
        some crow →
      login db ident u p =
        loginWithEmail ident crow.hit p
          [.queryTherapist, .queryPatient, .queryParent]) ∧
    (maybeSingle (db.therapist.filter (fun t => t.username == u)) = none →
      maybeSingle (db.patient.filter (fun r => r.username == u)) = none →
      maybeSingle (db.parent_carer.filter (fun c => c.username == u)) = none →
      login db ident u p =
        (⟨false, "Invalid username or password", none⟩,
          [.queryTherapist, .queryPatient, .queryParent]) ∧
      LoginEvent.providerSignIn ∉ (login db ident u p).2) := by
  refine ⟨fun hT => ?_, fun hT hP => ?_, fun hT hP hC => ?_, fun hT hP hC => ?_⟩
  · have hlog : login db ident u p =
        loginWithEmail ident trow.hit p [.queryTherapist] := by
      simp [login, hT]
    refine ⟨hlog, fun hx => ?_, fun hx => ?_⟩ <;>
    · rw [hlog] at hx
      rcases loginWithEmail_trace_mem ident trow.hit p _ _ hx with h | h <;>
        simp_all
  · have hlog : login db ident u p =
        loginWithEmail ident prow.hit p [.queryTherapist, .queryPatient] := by
      simp [login, hT, hP]
    refine ⟨hlog, fun hx => ?_⟩
    rw [hlog] at hx
    rcases loginWithEmail_trace_mem ident prow.hit p _ _ hx with h | h <;>
      simp_all
  · simp [login, hT, hP, hC]
  · have hlog : login db ident u p =
        (⟨false, "Invalid username or password", none⟩,
          [.queryTherapist, .queryPatient, .queryParent]) := by
      simp [login, hT, hP, hC]
    refine ⟨hlog, fun hx => ?_⟩
    rw [hlog] at hx
    simp at hx

/-- Witness for C5: a store holding one therapist row resolves that
therapist's username at the first table and never consults the other
two. -/
theorem c5_witness :
    maybeSingle (dbTina.therapist.filter (fun t => t.username == "tina")) =
      some tinaRow ∧
    (login dbTina ident0 "tina" "pw" =
        loginWithEmail ident0 tinaRow.hit "pw" [.queryTherapist] ∧
      LoginEvent.queryPatient ∉ (login dbTina ident0 "tina" "pw").2 ∧
      LoginEvent.queryParent ∉ (login dbTina ident0 "tina" "pw").2) :=
  ⟨by decide,
    (c5_username_resolution_order dbTina ident0 "tina" "pw" tinaRow preRow
      carerRow).1 (by decide)⟩

/-- The `maybeSingle` shaping commutes with a column projection: a
single matching row projects to a single matching value. -/
theorem maybeSingle_map {α β : Type} (f : α → β) (l : List α) :
    maybeSingle (l.map f) = (maybeSingle l).map f := by
  rcases l with _ | ⟨x, _ | ⟨y, tl⟩⟩ <;> rfl

/-- When no profile table resolves the username, the login response is
the generic failure. -/
theorem login_resp_of_resolve_none (db : DB) (ident : Identity)
    (u p : String) (h : resolveEmail db u = none) :
    (login db ident u p).1 = ⟨false, "Invalid username or password", none⟩ := by
  unfold resolveEmail therapistEmails patientEmails parentEmails at h
  rw [maybeSingle_map, maybeSingle_map, maybeSingle_map] at h
  unfold login
  cases hT : maybeSingle (db.therapist.filter (fun t => t.username == u))
  · cases hP : maybeSingle (db.patient.filter (fun r => r.username == u))
    · cases hC : maybeSingle (db.parent_carer.filter (fun c => c.username == u))
      · simp [hT, hP, hC]
      · rw [hT, hP, hC] at h
        simp at h
    · rw [hT, hP] at h
      simp at h
  · rw [hT] at h
    simp at h

/-- When the username resolves to a nonempty email and the provider
rejects the credentials, the login response surfaces the provider's
message verbatim. -/
theorem login_resp_of_signin_error (db : DB) (ident : Identity)
    (u p e m : String) (h : resolveEmail db u = some e) (he : e ≠ "")
    (hsi : signInWithPassword ident e p = .error m) :
    (login db ident u p).1 = ⟨false, m, none⟩ := by
  unfold resolveEmail therapistEmails patientEmails parentEmails at h
  rw [maybeSingle_map, maybeSingle_map, maybeSingle_map] at h
  unfold login
  cases hT : maybeSingle (db.therapist.filter (fun t => t.username == u))
  · cases hP : maybeSingle (db.patient.filter (fun r => r.username == u))
    · cases hC : maybeSingle (db.parent_carer.filter (fun c => c.username == u))
      · rw [hT, hP, hC] at h
        simp at h
      · rw [hT, hP, hC] at h
        simp at h
        subst h
        simp [loginWithEmail, ParentCarerRow.hit, he, hsi]
    · rw [hT, hP] at h
      simp at h
      subst h
      simp [loginWithEmail, PatientRow.hit, he, hsi]
  · rw [hT] at h
    simp at h
    subst h
    simp [loginWithEmail, TherapistRow.hit, he, hsi]

/-- C3 (amended): an unknown username fails with the generic message
"Invalid username or password"; a resolvable username with a wrong
password fails with the identity provider's own rejection message,
surfaced verbatim — so the two causes coincide only when the provider's
message happens to equal the generic one.  In the legacy in-memory
backend route, by contrast, both causes return the identical generic
message. -/
theorem c3_amended_wrong_password_message (db : DB) (ident : Identity)
    (u p e m : String) (users : List BackendUser)
    (check : String → String → Bool) :
    (resolveEmail db u = none →
      (login db ident u p).1 = ⟨false, "Invalid username or password", none⟩) ∧
    (resolveEmail db u = some e → e ≠ "" →
      signInWithPassword ident e p = .error m →
      (login db ident u p).1 = ⟨false, m, none⟩) ∧
    (u.isEmpty = false → p.isEmpty = false →
      (users.find? (fun w => w.username == u || w.email == u) = none →
        backendLogin users check u p =
          (false, "Invalid username or password")) ∧
      (∀ w, users.find? (fun w' => w'.username == u || w'.email == u) = some w →
        check p w.password = false →
        backendLogin users check u p =
          (false, "Invalid username or password"))) := by
  refine ⟨fun hres => login_resp_of_resolve_none db ident u p hres,
    fun hres he hsi => login_resp_of_signin_error db ident u p e m hres he hsi,
    fun hu hp => ⟨fun hf => ?_, fun w hf hc => ?_⟩⟩
  · simp [backendLogin, hu, hp, hf]
  · simp [backendLogin, bcryptCompare, hu, hp, hf, hc]

/-- Witness for the amended C3: on the store produced by the example
registration, the unknown-username and wrong-password messages are the
generic one and the provider's one respectively. -/
theorem c3_amended_witness :
    resolveEmail willOut.2.2 "Will" = some "will@example.com" ∧
    signInWithPassword willOut.2.1 "will@example.com" "wrong" =
      .error "Invalid login credentials" ∧
    (login willOut.2.2 willOut.2.1 "Will" "wrong").1 =
      ⟨false, "Invalid login credentials", none⟩ ∧
    resolveEmail willOut.2.2 "Ghost" = none ∧
    (login willOut.2.2 willOut.2.1 "Ghost" "wrong").1 =
      ⟨false, "Invalid username or password", none⟩ :=
  ⟨by decide, by rfl,
    (c3_amended_wrong_password_message willOut.2.2 willOut.2.1 "Will" "wrong"
        "will@example.com" "Invalid login credentials" []
        (fun _ _ => false)).2.1 (by decide) (by decide) (by rfl),
    by decide,
    (c3_amended_wrong_password_message willOut.2.2 willOut.2.1 "Ghost" "wrong"
        "will@example.com" "Invalid login credentials" []
        (fun _ _ => false)).1 (by decide)⟩

/-- C10: `getPatientProfile` converts every failure — a missing row, a
multi-row result, or a transport error — into a `null` return, so the
patient dashboard sees the same `null` (and aborts with "Patient
profile not found") whether the profile is genuinely absent or the
query failed. -/
theorem c10_profile_failures_become_null (db : DB) (uid msg : String)
    (h : (db.patient.filter (fun r => r.user_id == uid)).length ≠ 1) :
    getPatientProfile db uid none = none ∧
    getPatientProfile db uid (some msg) = none ∧
    loadDashboardProfileError (getPatientProfile db uid none) =
      some "Patient profile not found" ∧
    loadDashboardProfileError (getPatientProfile db uid (some msg)) =
      some "Patient profile not found" := by
  rcases hfm : db.patient.filter (fun r => r.user_id == uid) with _ | ⟨x, tl⟩
  · simp [getPatientProfile, single, loadDashboardProfileError, hfm]
  · rcases tl with _ | ⟨y, tl'⟩
    · exact absurd (by rw [hfm]; rfl) h
    · simp [getPatientProfile, single, loadDashboardProfileError, hfm]

/-- Witness for C10: an empty store has no matching row; the profile
read returns `null` and the dashboard aborts with the user-visible
error. -/
theorem c10_witness :
    ((DB.empty.patient.filter (fun r => r.user_id == "u1")).length ≠ 1) ∧
    getPatientProfile DB.empty "u1" none = none ∧
    getPatientProfile DB.empty "u1" (some "network down") = none ∧
    loadDashboardProfileError (getPatientProfile DB.empty "u1" none) =
      some "Patient profile not found" ∧
    loadDashboardProfileError
        (getPatientProfile DB.empty "u1" (some "network down")) =
      some "Patient profile not found" :=
  ⟨by decide, c10_profile_failures_become_null DB.empty "u1" "network down"
    (by decide)⟩

/-- C6 counterexample: a parent/carer registration with the required
`relationshipToPatient` field empty still passes `validateForm` and
proceeds to account creation — the claim that validation fails whenever
a required field for the chosen role is missing is false at this
concrete input. -/
theorem c6_counterexample_parent_carer_field_unchecked :
    pcForm.relationshipToPatient = "" ∧ validateForm pcForm = true ∧
    (handleSubmitRegister pcForm ident0 DB.empty "uid-9" none none).isSome =
      true := by decide

/-- C6 (amended): `validateForm` fails exactly when a common required
field is missing, the password is shorter than 6 characters, the
password and confirmation differ, or a therapist- or patient-specific
required field is missing — the parent/carer-specific field is not
checked; submission proceeds to account creation exactly when
validation passes. -/
theorem c6_amended_validation_characterised (f : RegisterForm)
    (ident : Identity) (db : DB) (newId : String)
    (reject insertFail : Option String) :
    (validateForm f = true ↔
      (f.username.isEmpty = false ∧ f.email.isEmpty = false ∧
        f.password.isEmpty = false ∧ f.confirmPassword.isEmpty = false ∧
        f.firstName.isEmpty = false ∧ f.lastName.isEmpty = false ∧
        f.phoneNumber.isEmpty = false ∧ f.dateOfBirth.isEmpty = false ∧
        f.role.isEmpty = false ∧
        6 ≤ f.password.length ∧ f.password = f.confirmPassword ∧
        (f.role = "therapist" →
          f.clinicName.isEmpty = false ∧ f.yearsOfExperience.isEmpty = false ∧
            f.qualification.isEmpty = false) ∧
        (f.role = "patient" →
          f.therapyStartDate.isEmpty = false ∧
            f.preferredContactMethod.isEmpty = false))) ∧
    (handleSubmitRegister f ident db newId reject insertFail).isSome =
      validateForm f := by
  constructor
  · unfold validateForm
    split_ifs with h1 h2 h3 h4 h5 <;>
      simp_all [not_or, beq_iff_eq] <;> (intros; simp_all)
  · cases hv : validateForm f
    · simp [handleSubmitRegister, hv]
    · rcases hreg : register (buildRegisterData f) ident db newId reject
        insertFail with ⟨res, ident', db'⟩
      by_cases hs : res.success = true <;>
        simp [handleSubmitRegister, hv, hreg, hs]

/-- Witness for the amended C6: the spec example's form passes every
check of the characterisation and its submission proceeds. -/
theorem c6_amended_witness :
    validateForm willForm = true ∧
    (handleSubmitRegister willForm ident0 DB.empty "uid-1" none none).isSome =
      validateForm willForm :=
  ⟨(c6_amended_validation_characterised willForm ident0 DB.empty "uid-1"
      none none).1.mpr (by decide),
    (c6_amended_validation_characterised willForm ident0 DB.empty "uid-1"
      none none).2⟩

/-- Updating a row through `completeUpd` does not change whether it
matches the (session, exercise) pair. -/
theorem matchesSE_completeUpd (sid eid t : String) (r : SessionExerciseRow) :
    matchesSE sid eid (completeUpd sid eid t r) = matchesSE sid eid r := by
  unfold completeUpd
  split <;> simp_all [matchesSE]

/-- Filtering by the pair commutes with the bulk update. -/
theorem filter_map_completeUpd (sid eid t : String)
    (l : List SessionExerciseRow) :
    (l.map (completeUpd sid eid t)).filter (matchesSE sid eid) =
      (l.filter (matchesSE sid eid)).map (completeUpd sid eid t) := by
  induction l with
  | nil => rfl
  | cons r tl ih =>
      simp only [List.map_cons, List.filter_cons, matchesSE_completeUpd]
      cases h : matchesSE sid eid r <;> simp [h, ih]

/-- On a matching row, `completeUpd` sets the completed flag and the
completion timestamp. -/
theorem completeUpd_of_matches (sid eid t : String) (r : SessionExerciseRow)
    (h : matchesSE sid eid r = true) :
    completeUpd sid eid t r =
      { r with completed := true, completion_date := some t } := by
  simp [completeUpd, h]

/-- C7: with exactly one matching join row, marking an exercise complete
succeeds and doing it a second time still succeeds, afterwards every
matching row is completed with the latest call's timestamp; with no
matching row the call fails. -/
theorem c7_mark_complete_idempotent (db : DB) (sid eid t1 t2 : String)
    (h : (db.session_exercise.filter (matchesSE sid eid)).length = 1) :
    (markExerciseComplete db sid eid t1).1.isOk = true ∧
    (markExerciseComplete (markExerciseComplete db sid eid t1).2 sid eid
        t2).1.isOk = true ∧
    (∀ row ∈ (markExerciseComplete (markExerciseComplete db sid eid t1).2 sid
        eid t2).2.session_exercise,
      matchesSE sid eid row = true →
        row.completed = true ∧ row.completion_date = some t2) ∧
    (∀ dbN : DB,
      (dbN.session_exercise.filter (matchesSE sid eid)).length = 0 →
        (markExerciseComplete dbN sid eid t1).1.isOk = false) := by
  obtain ⟨x, hx⟩ := List.length_eq_one.mp h
  refine ⟨?_, ?_, ?_, ?_⟩
  · show (single ((db.session_exercise.map (completeUpd sid eid t1)).filter
      (matchesSE sid eid))).isOk = true
    rw [filter_map_completeUpd, hx]
    rfl
  · show (single (((db.session_exercise.map (completeUpd sid eid t1)).map
      (completeUpd sid eid t2)).filter (matchesSE sid eid))).isOk = true
    rw [filter_map_completeUpd, filter_map_completeUpd, hx]
    rfl
  · intro row hrow hmatch
    simp only [markExerciseComplete, List.mem_map] at hrow
    obtain ⟨r1, ⟨r0, _, hr0⟩, hr1⟩ := hrow
    subst hr0 hr1
    rw [matchesSE_completeUpd] at hmatch
    rw [completeUpd_of_matches _ _ _ _ hmatch]
    exact ⟨rfl, rfl⟩
  · intro dbN h0
    have h0' : dbN.session_exercise.filter (matchesSE sid eid) = [] :=
      List.length_eq_zero.mp h0
    show ((single ((dbN.session_exercise.map (completeUpd sid eid t1)).filter
      (matchesSE sid eid))).isOk = false)
    rw [filter_map_completeUpd, h0']
    rfl

/-- Witness for C7 on a store holding one incomplete matching join row
(and the no-row case on the empty store). -/
theorem c7_witness :
    (dbSE.session_exercise.filter (matchesSE "s1" "e1")).length = 1 ∧
    (markExerciseComplete dbSE "s1" "e1" "t1").1.isOk = true ∧
    (markExerciseComplete (markExerciseComplete dbSE "s1" "e1" "t1").2 "s1"
        "e1" "t2").1.isOk = true ∧
    (markExerciseComplete DB.empty "s1" "e1" "t1").1.isOk = false :=
  ⟨by decide,
    (c7_mark_complete_idempotent dbSE "s1" "e1" "t1" "t2" (by decide)).1,
    (c7_mark_complete_idempotent dbSE "s1" "e1" "t1" "t2" (by decide)).2.1,
    (c7_mark_complete_idempotent dbSE "s1" "e1" "t1" "t2" (by decide)).2.2.2
      DB.empty (by decide)⟩

/-- C8: for a therapist with zero session rows both dashboard reads
return the empty list (no error value exists on this path); and under
the store invariant that `patient.user_id` is unique, the patient list
returned by `getTherapistPatients` contains each patient id at most
once. -/
theorem c8_therapist_dashboard_reads (db : DB) (tid : String) (limit : Nat) :
    (db.session.filter (fun s => s.therapist_id == tid) = [] →
      getTherapistSessions db tid limit = [] ∧
      getTherapistPatients db tid = []) ∧
    ((db.patient.map (·.user_id)).Nodup →
      ((getTherapistPatients db tid).map (·.user_id)).Nodup) := by
  constructor
  · intro h
    constructor
    · simp [getTherapistSessions, h]
    · simp [getTherapistPatients, h]
  · intro hnd
    by_cases hE : (db.session.filter (fun s => s.therapist_id == tid)).isEmpty
    · simp [getTherapistPatients, hE]
    · by_cases hP : (((db.session.filter (fun s => s.therapist_id == tid)).map
          (·.patient_id)).eraseDups).isEmpty
      · simp [getTherapistPatients, hE, hP]
      · have hres : getTherapistPatients db tid =
            (db.patient.filter (fun p =>
              (((db.session.filter (fun s => s.therapist_id == tid)).map
                (·.patient_id)).eraseDups).contains p.user_id)).insertionSort
              (fun a b => (b.created_at.getD "") ≤ (a.created_at.getD "")) := by
          simp [getTherapistPatients, hE, hP]
        rw [hres]
        have hsub : ((db.patient.filter (fun p =>
            (((db.session.filter (fun s => s.therapist_id == tid)).map
              (·.patient_id)).eraseDups).contains p.user_id)).map
            (·.user_id)).Sublist (db.patient.map (·.user_id)) :=
          (List.filter_sublist _).map _
        have h1 := hnd.sublist hsub
        exact ((List.perm_insertionSort _ _).map _).nodup_iff.mpr h1

/-- The function `getPatientAssignedExercises` equals one filter of the
`goal_exercise_set` table by membership of the goal id in the fan-out's
goal-id set (the early empty-step returns collapse into the same
filter, whose predicate is then everywhere false). -/
theorem getPatientAssignedExercises_eq_filter (db : DB) (pid : String) :
    getPatientAssignedExercises db pid =
      db.goal_exercise_set.filter (fun ge =>
        (goalIdsOf db pid).contains ge.goal_id) := by
  unfold getPatientAssignedExercises
  simp only []
  split
  · rename_i hS
    have hS' : db.session.filter (fun s => s.patient_id == pid) = [] :=
      List.isEmpty_iff.mp hS
    simp [goalIdsOf, sessionIdsOf, hS']
  · split
    · rename_i hM
      have hS' : db.session.filter (fun s => s.patient_id == pid) = [] :=
        List.map_eq_nil_iff.mp (List.isEmpty_iff.mp hM)
      simp [goalIdsOf, sessionIdsOf, hS']
    · split
      · rename_i hG
        have hG' : db.goal.filter (fun g =>
            ((db.session.filter (fun s => s.patient_id == pid)).map
              (·.session_id)).contains g.session_id) = [] :=
          List.isEmpty_iff.mp hG
        unfold goalIdsOf sessionIdsOf
        rw [hG']
        simp
      · split
        · rename_i hGm
          have hG' : db.goal.filter (fun g =>
              ((db.session.filter (fun s => s.patient_id == pid)).map
                (·.session_id)).contains g.session_id) = [] :=
            List.map_eq_nil_iff.mp (List.isEmpty_iff.mp hGm)
          unfold goalIdsOf sessionIdsOf
          rw [hG']
          simp
        · unfold goalIdsOf sessionIdsOf
          rfl

/-- Membership of a goal id in the fan-out's goal-id set coincides with
reachability patient → session → goal. -/
theorem goalIdsOf_contains_iff (db : DB) (pid gid : String) :
    (goalIdsOf db pid).contains gid =
      db.goal.any (fun g => g.goal_id == gid &&
        db.session.any (fun s => s.session_id == g.session_id &&
          s.patient_id == pid)) := by
  rw [Bool.eq_iff_iff]
  simp only [goalIdsOf, sessionIdsOf, List.contains_iff_exists_mem_beq,
    List.any_eq_true, List.mem_map, List.mem_filter, Bool.and_eq_true,
    beq_iff_eq]
  aesop

/-- C9: the assigned-exercises read performs the three-step fan-out
patient → sessions → goals → goal-exercise joins, returning exactly the
join rows reachable through that chain, and returning the empty list
(without any error path) whenever an intermediate step yields no
rows. -/
theorem c9_assigned_exercises_fanout (db : DB) (pid : String) :
    getPatientAssignedExercises db pid = reachableGoalExercises db pid ∧
    (db.session.filter (fun s => s.patient_id == pid) = [] →
      getPatientAssignedExercises db pid = []) ∧
    (db.goal.filter (fun g =>
        (sessionIdsOf db pid).contains g.session_id) = [] →
      getPatientAssignedExercises db pid = []) := by
  refine ⟨?_, fun h => ?_, fun h => ?_⟩
  · rw [getPatientAssignedExercises_eq_filter]
    unfold reachableGoalExercises
    exact List.filter_congr fun ge _ => goalIdsOf_contains_iff db pid ge.goal_id
  · rw [getPatientAssignedExercises_eq_filter]
    have : goalIdsOf db pid = [] := by
      simp [goalIdsOf, sessionIdsOf, h]
    simp [this]
  · rw [getPatientAssignedExercises_eq_filter]
    have hnil : goalIdsOf db pid = [] := by
      unfold goalIdsOf
      rw [h]
      rfl
    simp [hnil]

/-- Witness for C9: on a store where patient `p1` reaches exactly one
join row the fan-out returns it, and on the empty store the first empty
step returns the empty list. -/
theorem c9_witness :
    getPatientAssignedExercises dbNine "p1" = reachableGoalExercises dbNine "p1" ∧
    getPatientAssignedExercises dbNine "p1" = [⟨"g1", "e1"⟩] ∧
    DB.empty.session.filter (fun s => s.patient_id == "p1") = [] ∧
    getPatientAssignedExercises DB.empty "p1" = [] :=
  ⟨(c9_assigned_exercises_fanout dbNine "p1").1, by decide, by decide,
    (c9_assigned_exercises_fanout DB.empty "p1").2.1 (by decide)⟩

/-- Witness for C8 on the empty store. -/
theorem c8_witness :
    DB.empty.session.filter (fun s => s.therapist_id == "t1") = [] ∧
    getTherapistSessions DB.empty "t1" 10 = [] ∧
    getTherapistPatients DB.empty "t1" = [] ∧
    ((getTherapistPatients DB.empty "t1").map (·.user_id)).Nodup :=
  ⟨by decide,
    ((c8_therapist_dashboard_reads DB.empty "t1" 10).1 (by decide)).1,
    ((c8_therapist_dashboard_reads DB.empty "t1" 10).1 (by decide)).2,
    (c8_therapist_dashboard_reads DB.empty "t1" 10).2 (by decide)⟩

end OwnUrVoice
